import Mathlib

/-!
Shallow embedding of the bitsbay backend (Django/DRF marketplace) for
specification checking.  Each definition mirrors one function or declaration
of the repository; module and symbol names follow the source.
-/

namespace BitsBay

/-! ## core_users: data model (src/core_users/models.py) -/

/-- Mirrors `CustomUser` (src/core_users/models.py).  `phone_number` is a nullable
`CharField(max_length=10)`; `password_usable` models Django's password state
(`set_unusable_password` clears it). -/
structure CustomUser where
  id : Nat
  email : String
  first_name : String
  last_name : String
  phone_number : Option String
  password_usable : Bool
  deriving Repr, DecidableEq

/-! ## core_users: profile serializer (src/core_users/serializers.py) -/

/-- Python `str.isdigit` restricted to ASCII content: true iff the string is
nonempty and every character is a digit. -/
def pyIsdigit (s : String) : Bool :=
  s != "" && s.data.all Char.isDigit

/-- Mirrors `UserProfileSerializer.validate_phone_number` (src/core_users/serializers.py
lines 15-21).  Python truthiness of a string is nonemptiness, so both guards
are skipped for the empty string. -/
def validate_phone_number (value : String) : Except String String :=
  if value != "" && !(pyIsdigit value) then
    Except.error "Phone number must contain only digits"
  else if value != "" && value.length != 10 then
    Except.error "Phone number must be exactly 10 digits long"
  else
    Except.ok value

/-- The fields a profile-update request may carry.  `id`, `email`,
`first_name` and `last_name` are declared in
`UserProfileSerializer.Meta.read_only_fields`, so submitted values for them
never reach `validated_data`; only `phone_number` is writable. -/
structure ProfileUpdateRequest where
  first_name : Option String := none
  last_name : Option String := none
  email : Option String := none
  phone_number : Option String := none
  deriving Repr, DecidableEq

/-- Outcome of `UserProfileView.put`. -/
inductive PutResult where
  | success (body : CustomUser)
  | badRequest (msg : String)
  deriving Repr, DecidableEq

/-- Mirrors `UserProfileView.put` (src/core_users/views.py lines 124-140): run the
serializer (read-only fields are ignored, `phone_number` is validated by
`validate_phone_number`); if `phone_number` is in `validated_data`, persist
exactly that field (`user.save(update_fields=['phone_number'])`) and return
the refreshed profile; otherwise answer 400.  The returned pair is
(response, stored user after the request). -/
def profile_put (user : CustomUser) (req : ProfileUpdateRequest) :
    PutResult × CustomUser :=
  match req.phone_number with
  | some v =>
    match validate_phone_number v with
    | Except.ok v' =>
      let user' := { user with phone_number := some v' }
      (PutResult.success user', user')
    | Except.error e => (PutResult.badRequest e, user)
  | none =>
    (PutResult.badRequest "Only the phone_number field can be updated.", user)

/-! ## core_users: Google login (src/core_users/views.py lines 18-110) -/

/-- Claims extracted from a verified Google ID token. -/
structure IdInfo where
  email : Option String
  given_name : Option String
  family_name : Option String
  deriving Repr, DecidableEq

/-- Result of `id_token.verify_oauth2_token`: either validated claims or a
`ValueError`. -/
inductive TokenVerification where
  | valid (info : IdInfo)
  | invalid (msg : String)

/-- HTTP response of `GoogleLoginView.post`. -/
structure LoginResponse where
  status : Nat
  refresh : Option String := none
  access : Option String := none
  has_phone_number : Option Bool := none
  error : Option String := none
  deriving Repr, DecidableEq

/-- Mirrors `User.objects.get_or_create(email=email, defaults={...})`: look the user
up by email; if absent, create one from the defaults (a fresh Django user has
a usable password until `set_unusable_password`).  Returns (user, created,
database). -/
def get_or_create (db : List CustomUser) (nextId : Nat)
    (email fn ln : String) : CustomUser × Bool × List CustomUser :=
  match db.find? (fun u => u.email == email) with
  | some u => (u, false, db)
  | none =>
    let u : CustomUser :=
      { id := nextId, email := email, first_name := fn, last_name := ln,
        phone_number := none, password_usable := true }
    (u, true, db ++ [u])

/-- Mirrors `user.set_unusable_password()`. -/
def set_unusable_password (u : CustomUser) : CustomUser :=
  { u with password_usable := false }

/-- Mirrors `user.save()`: write the record back by primary key. -/
def save_user (db : List CustomUser) (u : CustomUser) : List CustomUser :=
  db.map fun v => if v.id == u.id then u else v

/-- Mirrors `RefreshToken.for_user` / `refresh.access_token`, abstracted to token
strings tied to the user identity. -/
def refresh_token_for (u : CustomUser) : String :=
  "refresh:" ++ toString u.id

def access_token_for (u : CustomUser) : String :=
  "access:" ++ toString u.id

/-- Mirrors `GoogleLoginView.post` (src/core_users/views.py lines 23-110).
`body_id_token` is `request.data.get('id_token')` (`none` when the key is
absent); `verify` stands for the external Google validation; `db` is the user
table and `nextId` the next primary key.  Both `if not token` (line 46) and
`if not email` (line 73) are Python truthiness checks, rejecting the value
when it is absent or the empty string.  Returns (response, user table after
the request). -/
def google_login_post (body_id_token : Option String)
    (verify : String → TokenVerification)
    (db : List CustomUser) (nextId : Nat) :
    LoginResponse × List CustomUser :=
  match body_id_token with
  | none => ({ status := 400, error := some "ID token is required" }, db)
  | some token =>
    if token = "" then
      ({ status := 400, error := some "ID token is required" }, db)
    else
      match verify token with
      | TokenVerification.invalid e =>
        ({ status := 401, error := some ("Invalid ID token: " ++ e) }, db)
      | TokenVerification.valid info =>
        match info.email with
        | none => ({ status := 400, error := some "Email not found in token" }, db)
        | some email =>
          if email = "" then
            ({ status := 400, error := some "Email not found in token" }, db)
          else
          let fn := info.given_name.getD ""
          let ln := info.family_name.getD ""
          let (user, created, db1) := get_or_create db nextId email fn ln
          let (user2, db2) :=
            if created then
              let u' := set_unusable_password user
              (u', save_user db1 u')
            else (user, db1)
          ({ status := 200,
             refresh := some (refresh_token_for user2),
             access := some (access_token_for user2),
             has_phone_number :=
               some (match user2.phone_number with
                     | some p => p ≠ ""
                     | none => false) }, db2)

/-! ## core_users: URL configuration (src/core_users/urls.py) -/

/-- The class names defined at module level in src/core_users/views.py. -/
def core_users_views_defs : List String :=
  ["GoogleLoginView", "UserProfileView"]

/-- The names src/core_users/urls.py line 3 imports from `core_users.views`. -/
def core_users_urls_imports : List String :=
  ["GoogleLoginView", "UserProfileView", "LogoutView"]

/-- Python import resolution for `from core_users.views import ...`: every
imported name must be defined in the module, else `ImportError` and the URL
configuration never loads. -/
def core_users_urls_loads : Bool :=
  core_users_urls_imports.all (fun n => core_users_views_defs.contains n)

/-! ## marketplace: data model (src/marketplace/models.py) -/

/-- Mirrors `Listing.STATUS_CHOICES` (src/marketplace/models.py lines 25-28): the
stored keys of the status enum. -/
def STATUS_CHOICES : List String := ["available", "sold"]

/-- Mirrors `Listing` (src/marketplace/models.py).  `seller` is a foreign key to
`CustomUser`, held here as the user's primary key. -/
structure Listing where
  pk : Nat
  seller : Nat
  title : String
  description : String
  price : Option Int
  tags : String
  negotiable : Bool
  year : Option String
  status : String
  deriving Repr, DecidableEq

/-! ## marketplace: serializers (src/marketplace/serializers.py) -/

/-- The raw body of a create/update request as the client sent it.  `title`
and `description` are required model fields; the rest carry their model
defaults when omitted.  `status = none` means the key is absent (the model
default `"available"` then applies at creation).  `seller` models a
client-supplied owner value: it is NOT in `ListingWriteSerializer.Meta.fields`
(src/marketplace/serializers.py lines 10-12), so the serializer drops it. -/
structure RawListingBody where
  title : String
  description : String
  price : Option Int := none
  tags : String := ""
  negotiable : Bool := false
  year : Option String := none
  status : Option String := none
  seller : Option Nat := none
  deriving Repr, DecidableEq

/-- The `validated_data` produced by `ListingWriteSerializer`: exactly the
fields listed in its `Meta.fields`.  `status = none` records that the key was
absent from the request. -/
structure ListingWriteData where
  title : String
  description : String
  price : Option Int
  tags : String
  negotiable : Bool
  year : Option String
  status : Option String
  deriving Repr, DecidableEq

/-- Mirrors `ListingWriteSerializer` validation: keep only the `Meta.fields`
(dropping any client-supplied `seller`), and check `status`, a
`ChoiceField` generated from `Listing.STATUS_CHOICES`, against the enum. -/
def listing_write_validate (body : RawListingBody) :
    Except String ListingWriteData :=
  match body.status with
  | some st =>
    if STATUS_CHOICES.contains st then
      Except.ok { title := body.title, description := body.description,
                  price := body.price, tags := body.tags,
                  negotiable := body.negotiable, year := body.year,
                  status := some st }
    else
      Except.error "not a valid choice"
  | none =>
    Except.ok { title := body.title, description := body.description,
                price := body.price, tags := body.tags,
                negotiable := body.negotiable, year := body.year,
                status := none }

/-- Python `str.split(',')` on a character list: the comma-separated chunks,
in order; splitting the empty string yields one empty chunk. -/
def splitComma : List Char → List (List Char)
  | [] => [[]]
  | c :: cs =>
    match splitComma cs with
    | [] => if c = ',' then [[], []] else [[c]]
    | h :: t => if c = ',' then [] :: h :: t else (c :: h) :: t

/-- Python `str.split(',')`. -/
def pySplit (s : String) : List String :=
  (splitComma s.data).map String.mk

/-- ASCII whitespace, as Python `str.strip()` removes (restricted to the
ASCII range): space, tab, newline, carriage return, vertical tab, form
feed. -/
def isSpaceChar (c : Char) : Bool :=
  c = ' ' || c = '\t' || c = '\n' || c = '\r' || c = '\x0b' || c = '\x0c'

/-- Python `str.strip()`: drop whitespace from both ends. -/
def pyStrip (s : String) : String :=
  String.mk (((s.data.dropWhile isSpaceChar).reverse.dropWhile
    isSpaceChar).reverse)

/-- Mirrors `ListingReadSerializer.get_tags` (src/marketplace/serializers.py lines
34-40): when `obj.tags` is truthy (a nonempty string), split on commas and
strip each part; otherwise return the empty list. -/
def get_tags (obj : Listing) : List String :=
  if obj.tags != "" then (pySplit obj.tags).map pyStrip
  else []

/-- The tag projection as the specification words it: the ordered sequence of
trimmed strings obtained by splitting the stored comma-delimited tag string.
Stated from the spec to compare with `get_tags`. -/
def spec_tags (obj : Listing) : List String :=
  (pySplit obj.tags).map pyStrip

/-! ## marketplace: permissions (src/marketplace/permissions.py) -/

inductive Method where
  | GET | HEAD | OPTIONS | POST | PUT | PATCH | DELETE
  deriving Repr, DecidableEq

/-- Mirrors `rest_framework.permissions.SAFE_METHODS`. -/
def SAFE_METHODS : List Method := [Method.GET, Method.HEAD, Method.OPTIONS]

/-- Mirrors `IsOwnerOrReadOnly.has_object_permission` (src/marketplace/permissions.py
lines 24-43): safe methods are always allowed; writes only when
`obj.seller == request.user`. -/
def has_object_permission (method : Method) (userId : Nat) (obj : Listing) :
    Bool :=
  if SAFE_METHODS.contains method then true
  else obj.seller == userId

/-! ## marketplace: viewset operations (src/marketplace/views.py) -/

/-- Error outcomes of the listing mutations.  `PermissionError` is the
object-permission denial; `ValidationError` a serializer rejection. -/
inductive ApiError where
  | PermissionError
  | ValidationError
  | NotFound
  deriving Repr, DecidableEq

/-- Applying validated update data to an instance (`serializer.save()` on an
existing object): every validated field is written; a field absent from
`validated_data` (here only `status` can be) keeps its stored value; `pk` and
`seller` are untouched. -/
def apply_write (l : Listing) (d : ListingWriteData) : Listing :=
  { l with title := d.title, description := d.description, price := d.price,
           tags := d.tags, negotiable := d.negotiable, year := d.year,
           status := d.status.getD l.status }

/-- Mirrors `ListingViewSet.perform_create` (src/marketplace/views.py lines 30-34):
`serializer.save(seller=self.request.user)` — the seller is the authenticated
requester, and an absent `status` takes the model default `"available"`. -/
def perform_create (requester : Nat) (newPk : Nat) (d : ListingWriteData) :
    Listing :=
  { pk := newPk, seller := requester, title := d.title,
    description := d.description, price := d.price, tags := d.tags,
    negotiable := d.negotiable, year := d.year,
    status := d.status.getD "available" }

/-- Mirrors `ListingViewSet` create action: validate the body, then
`perform_create`.  Returns (error?, listing table after the request). -/
def create_listing (requester : Nat) (body : RawListingBody) (newPk : Nat)
    (store : List Listing) : Option ApiError × List Listing :=
  match listing_write_validate body with
  | Except.error _ => (some ApiError.ValidationError, store)
  | Except.ok d => (none, store ++ [perform_create requester newPk d])

/-- Mirrors `ListingViewSet` update action (PUT): `get_object` checks
`has_object_permission` first (DRF raises the permission denial before the
serializer runs), then the body is validated and saved onto the instance.
Returns (error?, listing table after the request). -/
def update_listing (requester : Nat) (pk : Nat) (body : RawListingBody)
    (store : List Listing) : Option ApiError × List Listing :=
  match store.find? (fun l => l.pk == pk) with
  | none => (some ApiError.NotFound, store)
  | some obj =>
    if has_object_permission Method.PUT requester obj then
      match listing_write_validate body with
      | Except.ok d =>
        (none, store.map fun l => if l.pk == pk then apply_write l d else l)
      | Except.error _ => (some ApiError.ValidationError, store)
    else (some ApiError.PermissionError, store)

/-- Mirrors `ListingViewSet` destroy action (DELETE): `get_object` checks
`has_object_permission`, then the instance is deleted.  Returns (error?,
listing table after the request). -/
def destroy_listing (requester : Nat) (pk : Nat) (store : List Listing) :
    Option ApiError × List Listing :=
  match store.find? (fun l => l.pk == pk) with
  | none => (some ApiError.NotFound, store)
  | some obj =>
    if has_object_permission Method.DELETE requester obj then
      (none, store.filter fun l => l.pk != pk)
    else (some ApiError.PermissionError, store)

/-! ## marketplace: pagination (src/marketplace/pagination.py) -/

/-- Mirrors `CustomPageNumberPagination.page_size` (the class attribute, fixed at 8). -/
def page_size : Nat := 8

/-- Mirrors `CustomPageNumberPagination.max_page_size`. -/
def max_page_size : Nat := 100

/-- Mirrors `PageNumberPagination.get_page_size`: the effective page size used to cut
the queryset into pages — the `page_size` query parameter when it is a
positive integer (cut off at `max_page_size`), else the default 8.  The class
attribute `page_size` itself is never reassigned. -/
def get_page_size (requested : Option Nat) : Nat :=
  match requested with
  | some n => if 0 < n then min n max_page_size else page_size
  | none => page_size

/-- The flat pagination envelope: `total_pages` plus the page's items under
keys `item_0`, `item_1`, ... -/
structure PaginatedResponse where
  total_pages : Nat
  items : List (String × Listing)
  deriving Repr, DecidableEq

/-- Mirrors `CustomPageNumberPagination.get_paginated_response`
(src/marketplace/pagination.py lines 15-26):
`math.ceil(self.page.paginator.count / self.page_size)` — note it divides by
the class attribute `page_size` (8), not by the effective page size — then
each item of the page under the flat key `item_i`. -/
def get_paginated_response (count : Nat) (data : List Listing) :
    PaginatedResponse :=
  { total_pages := (count + page_size - 1) / page_size,
    items := data.enum.map fun p => ("item_" ++ toString p.1, p.2) }

/-- The listing list endpoint: page `pageNum` (1-based) of the stored
listings, cut by the effective page size, wrapped in the flat envelope. -/
def list_listings (store : List Listing) (pageNum : Nat)
    (requested : Option Nat) : PaginatedResponse :=
  let s := get_page_size requested
  let data := (store.drop ((pageNum - 1) * s)).take s
  get_paginated_response store.length data

/-! ## Concrete demonstration values -/

/-- A concrete stored user, for witnesses and counterexamples. -/
def demo_user : CustomUser :=
  { id := 1, email := "a@bits.in", first_name := "Asha", last_name := "Rao",
    phone_number := some "9876543210", password_usable := false }

/-- A concrete stored listing with primary key `n`. -/
def mk_listing (n : Nat) : Listing :=
  { pk := n, seller := 1, title := "Physics book", description := "good",
    price := some 100, tags := "", negotiable := false, year := none,
    status := "available" }

/-- A concrete stored listing whose tag string is `"a, b,c"`. -/
def demo_listing : Listing := { mk_listing 1 with tags := "a, b,c" }

/-- A concrete write body. -/
def demo_body : RawListingBody :=
  { title := "Chem book", description := "fine", status := some "sold" }

/-- Seventeen stored listings, for the pagination example. -/
def store17 : List Listing := (List.range 17).map mk_listing

/-- A concrete external token validation: `"t"` verifies to a Google identity
with email `s@bits.in`; everything else is invalid. -/
def demo_verify (token : String) : TokenVerification :=
  if token = "t" then
    TokenVerification.valid
      { email := some "s@bits.in", given_name := some "Sri",
        family_name := some "S" }
  else TokenVerification.invalid "bad token"

/-! ## Theorems -/

/-- C3: the spec says a logout operation exists and blacklists the refresh
token.  The URL configuration (src/core_users/urls.py line 3) imports
`LogoutView` from `core_users.views`, but src/core_users/views.py defines no
such class, so the import raises `ImportError` and the logout route can never
load: the code contradicts its own URL declaration. -/
theorem logout_view_missing :
    "LogoutView" ∈ core_users_urls_imports ∧
    "LogoutView" ∉ core_users_views_defs ∧
    core_users_urls_loads = false := by decide

/-- C4 counterexample: the empty string is accepted by
`validate_phone_number` (both truthiness guards skip it) and persisted by the
profile update, yet it is not a 10-digit value — refuting "every other
submitted value is rejected with ValidationError". -/
theorem validate_phone_number_accepts_empty :
    validate_phone_number "" = Except.ok "" ∧
    profile_put demo_user { phone_number := some "" } =
      (PutResult.success { demo_user with phone_number := some "" },
       { demo_user with phone_number := some "" }) ∧
    ¬ (String.length "" = 10 ∧ "".data.all Char.isDigit = true) :=
  ⟨rfl, rfl, by decide⟩

/-- C4 amended: a NONEMPTY submitted phone-number value is accepted and
persisted iff it is exactly 10 characters, all digits; any other nonempty
value is rejected with a validation error and the profile is unchanged (the
empty value is let through by the validator). -/
theorem phone_number_validation_amended (u : CustomUser) (v : String)
    (hv : v ≠ "") :
    ((v.length = 10 ∧ v.data.all Char.isDigit = true) →
      profile_put u { phone_number := some v } =
        (PutResult.success { u with phone_number := some v },
         { u with phone_number := some v })) ∧
    (¬ (v.length = 10 ∧ v.data.all Char.isDigit = true) →
      ∃ e, profile_put u { phone_number := some v } =
        (PutResult.badRequest e, u)) := by
  have hb : (v != "") = true := by simpa using hv
  constructor
  · rintro ⟨hlen, hdig⟩
    have hval : validate_phone_number v = Except.ok v := by
      simp [validate_phone_number, pyIsdigit, hb, hdig, hlen]
    simp [profile_put, hval]
  · intro hnot
    by_cases hdig : v.data.all Char.isDigit = true
    · have hlen : v.length ≠ 10 := fun h => hnot ⟨h, hdig⟩
      refine ⟨"Phone number must be exactly 10 digits long", ?_⟩
      have hval : validate_phone_number v =
          Except.error "Phone number must be exactly 10 digits long" := by
        simp [validate_phone_number, pyIsdigit, hb, hdig, hlen]
      simp [profile_put, hval]
    · refine ⟨"Phone number must contain only digits", ?_⟩
      have hval : validate_phone_number v =
          Except.error "Phone number must contain only digits" := by
        simp [validate_phone_number, pyIsdigit, hb, hdig]
      simp [profile_put, hval]

/-- C4 witness: a concrete 10-digit value is accepted and persisted. -/
theorem phone_number_validation_amended_witness :
    profile_put demo_user { phone_number := some "0123456789" } =
      (PutResult.success { demo_user with phone_number := some "0123456789" },
       { demo_user with phone_number := some "0123456789" }) :=
  (phone_number_validation_amended demo_user "0123456789" (by decide)).1
    (by decide)

/-- C8 counterexample: a stored listing with the empty tag string.  The read
projection returns `[]`, while splitting the stored comma-delimited value and
trimming yields `[""]` — so the projection is not the trimmed split for every
stored listing. -/
theorem get_tags_empty_diverges :
    (mk_listing 1).tags = "" ∧
    get_tags (mk_listing 1) = [] ∧
    spec_tags (mk_listing 1) = [""] ∧
    get_tags (mk_listing 1) ≠ spec_tags (mk_listing 1) := by decide

/-- C8 amended: for every stored listing with a NONEMPTY tag string the read
projection is exactly the ordered trimmed split of the stored comma-delimited
value (a listing with the empty tag string yields `[]`); in particular
storing `"a, b,c"` yields `["a", "b", "c"]`. -/
theorem get_tags_amended (obj : Listing) (h : obj.tags ≠ "") :
    get_tags obj = spec_tags obj ∧
    get_tags demo_listing = ["a", "b", "c"] := by
  have hb : (obj.tags != "") = true := by simpa using h
  exact ⟨by simp [get_tags, spec_tags, hb], by decide⟩

/-- C8 witness: the round-trip on the concrete stored value `"a, b,c"`. -/
theorem get_tags_amended_witness :
    get_tags demo_listing = spec_tags demo_listing :=
  (get_tags_amended demo_listing (by decide)).1

/-- C10: a token-exchange request whose body has no `id_token` (key absent,
or present but empty — Python truthiness) gets a 400 response with error
"ID token is required", the user table is unchanged, and the response carries
no tokens. -/
theorem missing_id_token_rejected (body_id_token : Option String)
    (verify : String → TokenVerification) (db : List CustomUser) (nextId : Nat)
    (h : body_id_token = none ∨ body_id_token = some "") :
    google_login_post body_id_token verify db nextId =
      ({ status := 400, error := some "ID token is required" }, db) := by
  rcases h with h | h <;> subst h <;> rfl

/-- C10 witness: the concrete absent-key request. -/
theorem missing_id_token_rejected_witness :
    google_login_post none demo_verify [] 1 =
      ({ status := 400, error := some "ID token is required" }, []) :=
  missing_id_token_rejected none demo_verify [] 1 (Or.inl rfl)

/-- C6 counterexample: with 17 stored listings and the page size overridden
to 100 (effective size `get_page_size (some 100) = 100`), the response's
`total_pages` is 3 — `ceil(17/8)` with the fixed default size — while the
claim's formula, the count divided by the EFFECTIVE page size rounded up,
gives 1. -/
theorem total_pages_ignores_requested_size :
    get_page_size (some 100) = 100 ∧
    store17.length = 17 ∧
    (list_listings store17 1 (some 100)).total_pages = 3 ∧
    (store17.length + get_page_size (some 100) - 1) / get_page_size (some 100)
      = 1 ∧
    (3 : Nat) ≠ 1 := by decide

/-- C5 counterexample: a request that submits a change to `first_name`
("Zed", different from the stored "Asha") TOGETHER with a valid phone number
succeeds — the read-only field is silently ignored, not rejected — refuting
"every profile update request that submits a change to any field other than
phone_number fails with ValidationError". -/
theorem profile_put_ignores_readonly_fields :
    (profile_put demo_user
        { first_name := some "Zed", phone_number := some "1234567890" }).1 =
      PutResult.success { demo_user with phone_number := some "1234567890" } ∧
    demo_user.first_name ≠ "Zed" :=
  ⟨rfl, by decide⟩

/-- C5 amended: submitted values for fields other than phone_number are
silently ignored (they are read-only in the serializer); the request fails
with a bad-request response iff phone_number is absent from the validated
data or fails validation; on success only the phone-number field is
persisted — id, email, first and last name are unchanged — and the refreshed
profile is returned. -/
theorem profile_put_amended (u : CustomUser) (req : ProfileUpdateRequest) :
    (∀ v, req.phone_number = some v → validate_phone_number v = Except.ok v →
      profile_put u req =
        (PutResult.success { u with phone_number := some v },
         { u with phone_number := some v })) ∧
    (∀ v e, req.phone_number = some v →
      validate_phone_number v = Except.error e →
      profile_put u req = (PutResult.badRequest e, u)) ∧
    (req.phone_number = none →
      profile_put u req =
        (PutResult.badRequest "Only the phone_number field can be updated.",
         u)) ∧
    (profile_put u req).2.id = u.id ∧
    (profile_put u req).2.email = u.email ∧
    (profile_put u req).2.first_name = u.first_name ∧
    (profile_put u req).2.last_name = u.last_name := by
  refine ⟨?_, ?_, ?_, ?_, ?_, ?_, ?_⟩
  · intro v hpv hok
    simp [profile_put, hpv, hok]
  · intro v e hpv herr
    simp [profile_put, hpv, herr]
  · intro hpv
    simp [profile_put, hpv]
  all_goals
    rcases hp : req.phone_number with _ | v
    · simp [profile_put, hp]
    · rcases hval : validate_phone_number v with w | w <;>
        simp [profile_put, hp, hval]

/-- C5 witness: a concrete valid phone-number update succeeds and persists
exactly that field. -/
theorem profile_put_amended_witness :
    profile_put demo_user { phone_number := some "0000000000" } =
      (PutResult.success { demo_user with phone_number := some "0000000000" },
       { demo_user with phone_number := some "0000000000" }) :=
  (profile_put_amended demo_user { phone_number := some "0000000000" }).1
    "0000000000" rfl rfl

/-- C6 amended: the paginated response is the flat envelope with items under
keys `item_0`, `item_1`, ...; `total_pages` is always the total count divided
by the DEFAULT page size 8 rounded up, even when the caller overrides the
page size; the effective page size defaults to 8 and an override is capped at
100; and 17 stored listings yield `total_pages = 3`. -/
theorem pagination_envelope_amended (store : List Listing) (pageNum : Nat)
    (requested : Option Nat) :
    (list_listings store pageNum requested).total_pages =
      (store.length + 7) / 8 ∧
    (list_listings store pageNum requested).items.map Prod.fst =
      (List.range (list_listings store pageNum requested).items.length).map
        (fun i => "item_" ++ toString i) ∧
    get_page_size none = 8 ∧
    (∀ n, 0 < n → get_page_size (some n) = min n 100) ∧
    (list_listings store17 1 none).total_pages = 3 := by
  refine ⟨rfl, ?_, rfl, ?_, by decide⟩
  · have h : ∀ data : List Listing,
        (get_paginated_response store.length data).items.map Prod.fst =
          (List.range
            ((get_paginated_response store.length data).items.length)).map
            (fun i => "item_" ++ toString i) := by
      intro data
      simp only [get_paginated_response, List.map_map, List.length_map,
        List.enum_length]
      rw [show ((fun p : String × Listing => p.1) ∘
          fun p : Nat × Listing => ("item_" ++ toString p.1, p.2)) =
          (fun i => "item_" ++ toString i) ∘ Prod.fst from rfl]
      rw [← List.map_map, List.enum_map_fst]
    exact h _
  · intro n hn
    simp [get_page_size, max_page_size, hn]

/-- C6 amended witness: a concrete override (size 5) is capped/used as
`min 5 100`, and `total_pages` over the 17 stored listings is still
`ceil(17/8)`. -/
theorem pagination_envelope_amended_witness :
    get_page_size (some 5) = min 5 100 ∧
    (list_listings store17 1 (some 5)).total_pages = (store17.length + 7) / 8 :=
  ⟨(pagination_envelope_amended store17 1 (some 5)).2.2.2.1 5 (by decide),
   (pagination_envelope_amended store17 1 (some 5)).1⟩

/-- C1: for listing update and delete on a stored listing, the operation
succeeds iff the requester's identity equals the listing's stored owner
(`seller`) identity (for update, given a body the serializer accepts); when
the requester is not the owner, the operation fails with `PermissionError`
and the listing table is unchanged. -/
theorem listing_mutation_owner_only (requester pk : Nat)
    (body : RawListingBody) (store : List Listing) (obj : Listing)
    (hfind : store.find? (fun l => l.pk == pk) = some obj) :
    ((destroy_listing requester pk store).1 = none ↔
      obj.seller = requester) ∧
    (obj.seller ≠ requester →
      destroy_listing requester pk store =
        (some ApiError.PermissionError, store)) ∧
    ((∃ d, listing_write_validate body = Except.ok d) →
      ((update_listing requester pk body store).1 = none ↔
        obj.seller = requester)) ∧
    (obj.seller ≠ requester →
      update_listing requester pk body store =
        (some ApiError.PermissionError, store)) := by
  have hperm : ∀ m : Method, SAFE_METHODS.contains m = false →
      has_object_permission m requester obj = (obj.seller == requester) := by
    intro m hm
    unfold has_object_permission
    rw [hm]
    simp
  by_cases howner : obj.seller = requester
  · have hb : (obj.seller == requester) = true := by simp [howner]
    refine ⟨?_, fun h => absurd howner h, ?_, fun h => absurd howner h⟩
    · simp [destroy_listing, hfind, hperm Method.DELETE rfl, hb, howner]
    · rintro ⟨d, hd⟩
      simp [update_listing, hfind, hperm Method.PUT rfl, hb, howner, hd]
  · have hb : (obj.seller == requester) = false := by simp [howner]
    refine ⟨?_, fun _ => ?_, fun _ => ?_, fun _ => ?_⟩
    · simp [destroy_listing, hfind, hperm Method.DELETE rfl, hb, howner]
    · simp [destroy_listing, hfind, hperm Method.DELETE rfl, hb]
    · simp [update_listing, hfind, hperm Method.PUT rfl, hb, howner]
    · simp [update_listing, hfind, hperm Method.PUT rfl, hb]

/-- C1 witness: the stored owner (user 1) may delete their listing; a
stranger (user 2) gets `PermissionError` and the table is unchanged. -/
theorem listing_mutation_owner_only_witness :
    ((destroy_listing 1 1 [mk_listing 1]).1 = none ↔
      (mk_listing 1).seller = 1) ∧
    ((mk_listing 1).seller ≠ 2 →
      destroy_listing 2 1 [mk_listing 1] =
        (some ApiError.PermissionError, [mk_listing 1])) :=
  ⟨(listing_mutation_owner_only 1 1 demo_body [mk_listing 1] (mk_listing 1)
      (by decide)).1,
   (listing_mutation_owner_only 2 1 demo_body [mk_listing 1] (mk_listing 1)
      (by decide)).2.1⟩

/-- C2: a successful listing creation appends exactly one listing whose
`seller` is the authenticated requester, and the serializer's output — hence
the whole creation — is independent of any client-supplied `seller` value
(the field is not in `ListingWriteSerializer.Meta.fields`). -/
theorem create_listing_sets_seller (requester : Nat) (body : RawListingBody)
    (newPk : Nat) (store : List Listing) (d : ListingWriteData)
    (hv : listing_write_validate body = Except.ok d) :
    create_listing requester body newPk store =
      (none, store ++ [perform_create requester newPk d]) ∧
    (perform_create requester newPk d).seller = requester ∧
    (∀ s, listing_write_validate { body with seller := s } =
      listing_write_validate body) ∧
    (∀ s, create_listing requester { body with seller := s } newPk store =
      create_listing requester body newPk store) := by
  refine ⟨?_, rfl, fun s => rfl, fun s => rfl⟩
  simp [create_listing, hv]

/-- C2 witness: user 7 creates a listing from a body that carries
`seller := some 99`; the stored listing's seller is 7. -/
theorem create_listing_sets_seller_witness :
    (perform_create 7 2
      { title := "Chem book", description := "fine", price := none,
        tags := "", negotiable := false, year := none,
        status := some "sold" }).seller = 7 :=
  (create_listing_sets_seller 7 { demo_body with seller := some 99 } 2 []
    { title := "Chem book", description := "fine", price := none,
      tags := "", negotiable := false, year := none, status := some "sold" }
    rfl).2.1

/-- The status invariant: every stored listing's status is one of the two
enum keys. -/
def statusInvariant (store : List Listing) : Prop :=
  ∀ l ∈ store, l.status ∈ STATUS_CHOICES

/-- The write serializer only lets enum keys through as status. -/
lemma validate_status_mem (body : RawListingBody) (d : ListingWriteData)
    (hv : listing_write_validate body = Except.ok d) (st : String)
    (hst : d.status = some st) : st ∈ STATUS_CHOICES := by
  unfold listing_write_validate at hv
  rcases hb : body.status with _ | st'
  · rw [hb] at hv
    injection hv with hv
    rw [← hv] at hst
    simp at hst
  · rw [hb] at hv
    dsimp only at hv
    by_cases hc : STATUS_CHOICES.contains st'
    · rw [if_pos hc] at hv
      injection hv with hv
      rw [← hv] at hst
      simp at hst
      rw [← hst]
      simpa using hc
    · rw [if_neg hc] at hv
      exact absurd hv (by simp)

/-- C9: the status enum is invariant under every listing operation — a
listing table in which every status is `available` or `sold` stays that way
under create, update and destroy — and a creation whose body carries no
status gets the model default `available`. -/
theorem listing_status_enum (requester pk newPk : Nat)
    (body : RawListingBody) (store : List Listing)
    (hinv : statusInvariant store) :
    statusInvariant (create_listing requester body newPk store).2 ∧
    statusInvariant (update_listing requester pk body store).2 ∧
    statusInvariant (destroy_listing requester pk store).2 ∧
    (∀ d, body.status = none → listing_write_validate body = Except.ok d →
      (perform_create requester newPk d).status = "available") := by
  refine ⟨?_, ?_, ?_, ?_⟩
  · rcases hv : listing_write_validate body with e | d
    · simpa [create_listing, hv] using hinv
    · intro l hl
      simp only [create_listing, hv] at hl
      rcases List.mem_append.mp hl with h | h
      · exact hinv l h
      · have hld : l = perform_create requester newPk d := by simpa using h
        subst hld
        rcases hd : d.status with _ | st
        · simp [perform_create, hd, STATUS_CHOICES]
        · have := validate_status_mem body d hv st hd
          simpa [perform_create, hd] using this
  · rcases hfind : store.find? (fun l => l.pk == pk) with _ | obj
    · simpa [update_listing, hfind] using hinv
    · by_cases hperm : has_object_permission Method.PUT requester obj = true
      · rcases hv : listing_write_validate body with e | d
        · simpa [update_listing, hfind, hperm, hv] using hinv
        · intro l hl
          simp only [update_listing, hfind, hperm, hv, if_true] at hl
          rcases List.mem_map.mp hl with ⟨l', hl', heq⟩
          by_cases hpk : (l'.pk == pk) = true
          · rw [if_pos hpk] at heq
            subst heq
            rcases hd : d.status with _ | st
            · simpa [apply_write, hd] using hinv l' hl'
            · have := validate_status_mem body d hv st hd
              simpa [apply_write, hd] using this
          · rw [if_neg hpk] at heq
            subst heq
            exact hinv l' hl'
      · have hperm' : has_object_permission Method.PUT requester obj = false :=
          Bool.eq_false_iff.mpr hperm
        simpa [update_listing, hfind, hperm'] using hinv
  · rcases hfind : store.find? (fun l => l.pk == pk) with _ | obj
    · simpa [destroy_listing, hfind] using hinv
    · by_cases hperm : has_object_permission Method.DELETE requester obj = true
      · intro l hl
        simp only [destroy_listing, hfind, hperm, if_true] at hl
        exact hinv l (List.mem_filter.mp hl).1
      · have hperm' :
            has_object_permission Method.DELETE requester obj = false :=
          Bool.eq_false_iff.mpr hperm
        simpa [destroy_listing, hfind, hperm'] using hinv
  · intro d hb hv
    unfold listing_write_validate at hv
    rw [hb] at hv
    injection hv with hv
    rw [← hv]
    simp [perform_create]

/-- C9 witness: creating a listing in the empty table keeps the invariant. -/
theorem listing_status_enum_witness :
    statusInvariant (create_listing 1 demo_body 1 []).2 :=
  (listing_status_enum 1 1 1 demo_body [] (by simp [statusInvariant])).1

/-- Saving a freshly appended user only rewrites that user's row: existing
rows have different primary keys. -/
lemma save_user_fresh (db : List CustomUser) (u w : CustomUser)
    (hw : w.id = u.id) (hfresh : ∀ v ∈ db, v.id ≠ u.id) :
    save_user (db ++ [u]) w = db ++ [w] := by
  unfold save_user
  rw [List.map_append]
  have h1 : ∀ l : List CustomUser, (∀ v ∈ l, v.id ≠ u.id) →
      l.map (fun v => if v.id == w.id then w else v) = l := by
    intro l
    induction l with
    | nil => intro _; rfl
    | cons a t ih =>
      intro hl
      have ha : (a.id == w.id) = false := by
        rw [hw]
        exact beq_eq_false_iff_ne.mpr (hl a (List.mem_cons_self a t))
      simp only [List.map_cons, ha, Bool.false_eq_true, if_false]
      rw [ih (fun v hv => hl v (List.mem_cons_of_mem a hv))]
  have h2 : [u].map (fun v => if v.id == w.id then w else v) = [w] := by
    simp [hw]
  rw [h1 db hfresh, h2]

/-- Looking an email up in a table that ends in a user with that email, none
of whose predecessors match, finds exactly that user. -/
lemma find?_email_append (db : List CustomUser) (u : CustomUser)
    (email : String) (hu : u.email = email)
    (habsent : db.find? (fun v => v.email == email) = none) :
    (db ++ [u]).find? (fun v => v.email == email) = some u := by
  rw [List.find?_append, habsent]
  simp [List.find?_cons, hu]

/-- C7: a sign-in whose verified token carries a previously-unseen email
appends exactly one user — carrying that email, with unusable password — and
returns a 200 session (refresh/access pair) for it; a second sign-in with the
same email leaves the user table unchanged and returns a session for the
existing user. -/
theorem google_signin_idempotent (db : List CustomUser) (nextId : Nat)
    (token : String) (verify : String → TokenVerification) (info : IdInfo)
    (email : String)
    (htok : token ≠ "")
    (hver : verify token = TokenVerification.valid info)
    (hemail : info.email = some email)
    (hem : email ≠ "")
    (habsent : db.find? (fun v => v.email == email) = none)
    (hfresh : ∀ v ∈ db, v.id ≠ nextId) :
    ∃ u : CustomUser, u.email = email ∧ u.password_usable = false ∧
      u.id = nextId ∧
      google_login_post (some token) verify db nextId =
        ({ status := 200, refresh := some (refresh_token_for u),
           access := some (access_token_for u),
           has_phone_number := some false }, db ++ [u]) ∧
      google_login_post (some token) verify (db ++ [u]) (nextId + 1) =
        ({ status := 200, refresh := some (refresh_token_for u),
           access := some (access_token_for u),
           has_phone_number := some false }, db ++ [u]) := by
  refine ⟨set_unusable_password
      { id := nextId, email := email, first_name := info.given_name.getD "",
        last_name := info.family_name.getD "", phone_number := none,
        password_usable := true }, rfl, rfl, rfl, ?_, ?_⟩
  · unfold google_login_post
    dsimp only
    rw [if_neg htok, hver]
    dsimp only
    rw [hemail]
    dsimp only
    rw [if_neg hem]
    unfold get_or_create
    rw [habsent]
    dsimp only
    simp only [reduceIte]
    rw [save_user_fresh db
      { id := nextId, email := email, first_name := info.given_name.getD "",
        last_name := info.family_name.getD "", phone_number := none,
        password_usable := true }
      (set_unusable_password
        { id := nextId, email := email, first_name := info.given_name.getD "",
          last_name := info.family_name.getD "", phone_number := none,
          password_usable := true })
      rfl hfresh]
    rfl
  · unfold google_login_post
    dsimp only
    rw [if_neg htok, hver]
    dsimp only
    rw [hemail]
    dsimp only
    rw [if_neg hem]
    unfold get_or_create
    rw [find?_email_append db _ email rfl habsent]
    rfl

/-- C7 witness: the concrete first and second sign-in on the empty user
table. -/
theorem google_signin_idempotent_witness :
    ∃ u : CustomUser, u.email = "s@bits.in" ∧ u.password_usable = false ∧
      u.id = 1 ∧
      google_login_post (some "t") demo_verify [] 1 =
        ({ status := 200, refresh := some (refresh_token_for u),
           access := some (access_token_for u),
           has_phone_number := some false }, [] ++ [u]) ∧
      google_login_post (some "t") demo_verify ([] ++ [u]) (1 + 1) =
        ({ status := 200, refresh := some (refresh_token_for u),
           access := some (access_token_for u),
           has_phone_number := some false }, [] ++ [u]) :=
  google_signin_idempotent [] 1 "t" demo_verify
    { email := some "s@bits.in", given_name := some "Sri",
      family_name := some "S" }
    "s@bits.in" (by decide) rfl rfl (by decide) rfl (by simp)

end BitsBay
